import Mathlib

/-!
# Verification of the GPflow quadrature-expectation fallback

Shallow embedding of `src/gpflow/expectations/quadratures.py`: the evaluator
resolver `get_eval_func` and the two multiply-dispatched quadrature
specializations (`_quadrature_expectation` for {Gaussian, DiagonalGaussian}
and for MarkovGaussian).

Tensors are modelled dynamically, **TensorFlow-style**, as a shape list
together with a total entry function on index lists; slicing, concatenation,
`matrix_diag`, `matrix_transpose`, `transpose`, `split` and broadcasting
multiplication are defined on this representation exactly as the TF
operations behave on well-formed dense arrays.

Python exceptions are modelled with `Except Err`; the CPython local-variable
semantics (a local bound in only one branch of an `if` is *unbound* in the
other, and referencing it raises `UnboundLocalError`) is modelled with
`Option`-valued local bindings, which is needed because the single-evaluator Gaussian branch binds `eval_fun` while the final call
reads `eval_func`.

The external collaborators of spec §6 (the quadrature primitive
`mvnquad`, the cross-covariance `Kuf`, the kernel predicate
`on_separate_dims`, and the multiple-dispatch expectation entry point used
by the recursive shortcut calls) are not part of the source under
verification and are abstracted as an environment record `Env`.
-/

namespace GPflow

/-- Python exceptions raised by (or reachable from) the embedded code. -/
inductive Err where
  | notImplementedError
  | typeError
  | attributeError
  /-- CPython `UnboundLocalError` (a subclass of `NameError`): a function
  local was referenced before any branch assigned it. -/
  | nameError
  deriving DecidableEq, Repr

/-- A dense tensorflow/numpy array: a shape together with a total entry
function on index lists (entries outside the shape are irrelevant junk, as
in any total model of a partial map). -/
structure Tensor where
  shape : List ℕ
  entry : List ℕ → ℚ

/-- Insert a value at position `k` of a list (used for `None`-axis insertion). -/
def insertAt : ℕ → ℕ → List ℕ → List ℕ
  | 0, v, l => v :: l
  | _ + 1, v, [] => [v]
  | k + 1, v, x :: l => x :: insertAt k v l

/-- Remove the element at position `k` of a list. -/
def removeAt : ℕ → List ℕ → List ℕ
  | _, [] => []
  | 0, _ :: l => l
  | k + 1, x :: l => x :: removeAt k l

/-- Swap the entries at positions `a` and `b` of a list. -/
def swapPos (l : List ℕ) (a b : ℕ) : List ℕ :=
  (l.set a (l.getD b 0)).set b (l.getD a 0)

namespace Tensor

/-- Indexing the leading axis: `t[i]` for a tensor of rank ≥ 1. -/
def index0 (t : Tensor) (i : ℕ) : Tensor where
  shape := t.shape.tail
  entry := fun idx => t.entry (i :: idx)

/-- The Python slice `t[:-1]` on the leading axis: drop the last entry of
axis 0.  Entries are unchanged; only the shape shrinks. -/
def dropLastAxis0 (t : Tensor) : Tensor where
  shape := match t.shape with
    | [] => []
    | n :: r => (n - 1) :: r
  entry := t.entry

/-- The Python slice `t[1:]` on the leading axis. -/
def tailAxis0 (t : Tensor) : Tensor where
  shape := match t.shape with
    | [] => []
    | n :: r => (n - 1) :: r
  entry := fun idx => match idx with
    | [] => t.entry []
    | i :: r => t.entry ((i + 1) :: r)

/-- TensorFlow `tf.concat((a, b), axis)` for tensors agreeing on every other axis. -/
def concat (axis : ℕ) (a b : Tensor) : Tensor where
  shape := a.shape.set axis (a.shape.getD axis 0 + b.shape.getD axis 0)
  entry := fun idx =>
    if idx.getD axis 0 < a.shape.getD axis 0 then a.entry idx
    else b.entry (idx.set axis (idx.getD axis 0 - a.shape.getD axis 0))

/-- Numpy `None`/`newaxis` insertion at position `k` (so
`x[:, :, None]` is `expandDims 2` and `x[:, None, :]` is `expandDims 1`). -/
def expandDims (t : Tensor) (k : ℕ) : Tensor where
  shape := insertAt k 1 t.shape
  entry := fun idx => t.entry (removeAt k idx)

/-- TensorFlow `tf.matrix_diag`: append one axis; the new last two axes hold the
diagonal matrix built from the old last axis (off-diagonal entries zero). -/
def matrixDiag (t : Tensor) : Tensor where
  shape := t.shape ++ [t.shape.getD (t.shape.length - 1) 0]
  entry := fun idx =>
    let r := t.shape.length
    if idx.getD (r - 1) 0 = idx.getD r 0 then t.entry (removeAt r idx) else 0

/-- TensorFlow `tf.matrix_transpose`: swap the last two axes. -/
def matrixTranspose (t : Tensor) : Tensor where
  shape := swapPos t.shape (t.shape.length - 2) (t.shape.length - 1)
  entry := fun idx => t.entry (swapPos idx (t.shape.length - 2) (t.shape.length - 1))

/-- TensorFlow `tf.transpose` with no permutation argument: reverse all axes. -/
def tfTranspose (t : Tensor) : Tensor where
  shape := t.shape.reverse
  entry := fun idx => t.entry idx.reverse

/-- Map an index of a broadcast result back into an operand of the given
shape: axes of extent 1 are pinned to index 0 (numpy/TF broadcasting). -/
def bcastIdx (shape idx : List ℕ) : List ℕ :=
  List.zipWith (fun s i => if s = 1 then 0 else i) shape idx

/-- Elementwise product with numpy/TF broadcasting of same-rank operands. -/
def mul (a b : Tensor) : Tensor where
  shape := List.zipWith max a.shape b.shape
  entry := fun idx => a.entry (bcastIdx a.shape idx) * b.entry (bcastIdx b.shape idx)

/-- TensorFlow `tf.split(x, 2, axis)[part]`: the two equal halves along `axis`. -/
def splitPart (t : Tensor) (axis part : ℕ) : Tensor where
  shape := t.shape.set axis (t.shape.getD axis 0 / 2)
  entry := fun idx => t.entry (idx.set axis (idx.getD axis 0 + part * (t.shape.getD axis 0 / 2)))

end Tensor

/-- The slice objects that occur in the source: `Ellipsis` (the normalized
default), `np.s_[:, :, None]` and `np.s_[:, None, :]`. -/
inductive Slice where
  | ellipsis
  | trailingNewaxis
  | middleNewaxis
  deriving DecidableEq, Repr

/-- Apply one of the slice objects of the source to an evaluator result. -/
def applySliceT : Slice → Tensor → Tensor
  | .ellipsis, t => t
  | .trailingNewaxis, t => t.expandDims 2
  | .middleNewaxis, t => t.expandDims 1

/-- Modelled from the spec: features (inducing-point specifications) are
opaque; every feature value in scope is an `InducingFeature` (the class
`InducingFeature` itself is not under `src/`). -/
inductive Feature where
  | inducing (id : ℕ)
  deriving DecidableEq, Repr

/-- Python `isinstance(feature, InducingFeature)`. -/
def Feature.isInducingFeature : Feature → Bool
  | .inducing _ => true

/-- Modelled from the spec: kernels and mean functions (classes
`kernels.Kernel` and `mfn.MeanFunction`, not under `src/`) are opaque
callables from an input tensor to a numeric tensor. -/
inductive Obj where
  | kernel (eval : Tensor → Tensor)
  | meanFunction (eval : Tensor → Tensor)

/-- Python `isinstance(o, kernels.Kernel)`. -/
def Obj.isKernel : Obj → Bool
  | .kernel _ => true
  | .meanFunction _ => false

/-- Python `isinstance(obj, kernels.Kernel)` for a possibly-`None` argument. -/
def isKernelOpt : Option Obj → Bool
  | some o => o.isKernel
  | none => false

/-- The distributions accepted by the first registration:
`(Gaussian, DiagonalGaussian)`.  A `Gaussian` carries a full N×D×D
covariance; a `DiagonalGaussian` stores its covariance as an N×D per-row
variance vector. -/
inductive GaussianFamily where
  | gaussian (mu cov : Tensor)
  | diagonalGaussian (mu cov : Tensor)

/-- Accessor `p.mu`. -/
def GaussianFamily.mu : GaussianFamily → Tensor
  | .gaussian m _ => m
  | .diagonalGaussian m _ => m

/-- Accessor `p.cov`. -/
def GaussianFamily.cov : GaussianFamily → Tensor
  | .gaussian _ c => c
  | .diagonalGaussian _ c => c

/-- The distribution accepted by the second registration: `MarkovGaussian`,
with mean of shape (N+1)×D and covariance of shape 2×(N+1)×D×D (`cov[0]`
the marginal blocks, `cov[1]` the cross-covariances). -/
structure MarkovGaussian where
  mu : Tensor
  cov : Tensor

/-- Modelled from the spec: the external collaborators of §6 — the
Gauss-Hermite quadrature primitive `mvnquad`, the cross-covariance function
`Kuf`, the kernel predicate `on_separate_dims`, and the multiply-dispatched
`quadrature_expectation` entry point used by the recursive shortcut calls —
are outside `src/` and are abstracted as an environment of opaque
functions.  `mvnquad` receives the evaluation function, mean, dense
covariance and quadrature order; its evaluation function may itself raise,
so it is `Except`-valued, and so is `on_separate_dims` (its body may touch
attributes of its argument). -/
structure Env where
  mvnquad : (Tensor → Except Err Tensor) → Tensor → Tensor → ℕ → Except Err Tensor
  kuf : Feature → Obj → Tensor → Tensor
  on_separate_dims : Obj → Option Obj → Except Err Bool
  qe : GaussianFamily → Option Obj → Option Feature → ℕ → Except Err Tensor

/-- Modelled from the spec: per §6 only a Kernel "exposes ... a queryable
"acts on disjoint dimensions from another kernel" predicate; a
MeanFunction exposes direct evaluation only.  The Python attribute access
`obj1.on_separate_dims(...)` therefore raises `AttributeError` when `obj1`
is a MeanFunction, and otherwise invokes the (opaque) kernel method. -/
def callOnSeparateDims (env : Env) (o : Obj) (other : Option Obj) : Except Err Bool :=
  match o with
  | .kernel e => env.on_separate_dims (.kernel e) other
  | .meanFunction _ => .error .attributeError

/-- Embedding of `get_eval_func(obj, feature, slice=None)` (quadratures.py lines 19-36):
return the function of interest (kernel or mean) for the expectation,
depending on the type of `obj` and whether a feature is given. -/
def get_eval_func (env : Env) (obj : Option Obj) (feature : Option Feature)
    (slice? : Option Slice) : Except Err (Tensor → Tensor) :=
  let slice := slice?.getD Slice.ellipsis
  match feature with
  | some f =>
    -- kernel + feature combination
    if !f.isInducingFeature || !isKernelOpt obj then
      .error .typeError
    else
      match obj with
      | some o => .ok (fun x => applySliceT slice (Tensor.tfTranspose (env.kuf f o x)))
      | none => .error .typeError  -- unreachable: `isKernelOpt none = false` was caught above
  | none =>
    match obj with
    | some (Obj.meanFunction m) => .ok (fun x => applySliceT slice (m x))
    | some (Obj.kernel e) => .ok e  -- `return obj`: the kernel itself; `slice` unused
    | none => .error .notImplementedError

/-- The branch-local `def eval_fun(x)` of the Gaussian path (lines 57-58): the single
resolved evaluator applied directly. -/
def gauss_eval_fun (env : Env) (obj1 : Option Obj) (feature1 : Option Feature) :
    Tensor → Except Err Tensor :=
  fun x =>
    match get_eval_func env obj1 feature1 none with
    | .error e => .error e
    | .ok f => .ok (f x)

/-- The branch-local `def eval_func(x)` of the Gaussian path (lines 60-63): product of
evaluator 1 with trailing broadcast axis and evaluator 2 with middle
broadcast axis. -/
def gauss_eval_func (env : Env) (obj1 : Option Obj) (feature1 : Option Feature)
    (obj2 : Option Obj) (feature2 : Option Feature) : Tensor → Except Err Tensor :=
  fun x =>
    match get_eval_func env obj1 feature1 (some .trailingNewaxis) with
    | .error e => .error e
    | .ok f1 =>
      match get_eval_func env obj2 feature2 (some .middleNewaxis) with
      | .error e => .error e
      | .ok f2 => .ok (Tensor.mul (f1 x) (f2 x))

/-- The diagnostic warning emitted by `logger.warn` at the top of both
specializations (lines 50-51 and 95-96). -/
def quadratureWarning : List String :=
  ["Quadrature is used to calculate the expectation. This means that an analytical implementations is not available for the given combination."]

/-- Embedding of the `_quadrature_expectation` registered for `(Gaussian, DiagonalGaussian)`
(quadratures.py lines 39-78).  The returned pair is (emitted log messages,
outcome).  The two branch-local Python functions `eval_fun` / `eval_func`
are modelled as `Option`-valued locals: each is bound only in its own
branch, and the final `mvnquad` call reads `eval_func`, raising
`UnboundLocalError` (here `Err.nameError`) when it was never bound. -/
def quadrature_expectation_gauss (env : Env) (p : GaussianFamily)
    (obj1 : Option Obj) (feature1 : Option Feature)
    (obj2 : Option Obj) (feature2 : Option Feature)
    (nghp? : Option ℕ) : List String × Except Err Tensor :=
  let nghp := nghp?.getD 100
  (quadratureWarning,
    match obj1 with
    | none => .error .notImplementedError  -- "First object cannot be None."
    | some o1 =>
      -- `if obj2 is None: def eval_fun(x) ... else: def eval_func(x) ...`
      let _eval_fun : Option (Tensor → Except Err Tensor) :=
        match obj2 with
        | none => some (gauss_eval_fun env obj1 feature1)
        | some _ => none
      let eval_func : Option (Tensor → Except Err Tensor) :=
        match obj2 with
        | none => none
        | some _ => some (gauss_eval_func env obj1 feature1 obj2 feature2)
      -- `return mvnquad(eval_func, p.mu, cov, nghp)` — reads `eval_func` only
      let finalCall := fun (cov : Tensor) =>
        match eval_func with
        | none => .error Err.nameError  -- `eval_func` unbound in this branch
        | some f => env.mvnquad f p.mu cov nghp
      match p with
      | .diagonalGaussian _ _ =>
        let iskernel1 := isKernelOpt obj1
        let iskernel2 := isKernelOpt obj2
        match callOnSeparateDims env o1 obj2 with
        | .error e => .error e
        | .ok separate_dims =>
          if iskernel1 && iskernel2 && separate_dims then
            -- no joint expectations required
            match env.qe p obj1 feature1 nghp with
            | .error e => .error e
            | .ok eKxz1 =>
              match env.qe p obj2 feature2 nghp with
              | .error e => .error e
              | .ok eKxz2 => .ok (Tensor.mul (eKxz1.expandDims 2) (eKxz2.expandDims 1))
          else
            finalCall (Tensor.matrixDiag p.cov)
      | .gaussian _ _ => finalCall p.cov)

/-- The Markov branch-local `def eval_func(x)` for `obj2 is None`
(lines 99-100): only `obj1` is evaluated. -/
def markov_eval_func_obj1 (env : Env) (obj1 : Option Obj) (feature1 : Option Feature) :
    Tensor → Except Err Tensor :=
  fun x =>
    match get_eval_func env obj1 feature1 none with
    | .error e => .error e
    | .ok f => .ok (f x)

/-- The Markov branch-local `def eval_func(x)` for `obj1 is None`
(lines 103-104): only `obj2` is evaluated. -/
def markov_eval_func_obj2 (env : Env) (obj2 : Option Obj) (feature2 : Option Feature) :
    Tensor → Except Err Tensor :=
  fun x =>
    match get_eval_func env obj2 feature2 none with
    | .error e => .error e
    | .ok f => .ok (f x)

/-- The Markov branch-local `def eval_func(x)` for the two-evaluator case
(lines 107-112): split the input in two halves along axis 1, apply
evaluator 1 to the first half with a trailing broadcast axis and
evaluator 2 to the second half with a middle broadcast axis, multiply. -/
def markov_eval_func_pair (env : Env) (obj1 : Option Obj) (feature1 : Option Feature)
    (obj2 : Option Obj) (feature2 : Option Feature) : Tensor → Except Err Tensor :=
  fun x =>
    let x1 := x.splitPart 1 0
    let x2 := x.splitPart 1 1
    match get_eval_func env obj1 feature1 (some .trailingNewaxis) with
    | .error e => .error e
    | .ok f1 =>
      match get_eval_func env obj2 feature2 (some .middleNewaxis) with
      | .error e => .error e
      | .ok f2 => .ok (Tensor.mul (f1 x1) (f2 x2))

/-- Line 114: `mu = tf.concat((p.mu[:-1, :], p.mu[1:, :]), 1)` — the N×2D
integration mean of the two-evaluator Markov case. -/
def markovPairMu (pmu : Tensor) : Tensor :=
  Tensor.concat 1 pmu.dropLastAxis0 pmu.tailAxis0

/-- Lines 115-117: the N×2D×2D block integration covariance of the
two-evaluator Markov case,
`cov_top = tf.concat((p.cov[0, :-1, :, :], p.cov[1, :-1, :, :]), 2)`,
`cov_bottom = tf.concat((tf.matrix_transpose(p.cov[1, :-1, :, :]), p.cov[0, 1:, :, :]), 2)`,
`cov = tf.concat((cov_top, cov_bottom), 1)`. -/
def markovPairCov (pcov : Tensor) : Tensor :=
  let cov_top := Tensor.concat 2 ((pcov.index0 0).dropLastAxis0) ((pcov.index0 1).dropLastAxis0)
  let cov_bottom := Tensor.concat 2 (Tensor.matrixTranspose ((pcov.index0 1).dropLastAxis0))
      ((pcov.index0 0).tailAxis0)
  Tensor.concat 1 cov_top cov_bottom

/-- Embedding of the `_quadrature_expectation` registered for `MarkovGaussian`
(quadratures.py lines 81-119).  `obj1` is always associated with `x_n`,
`obj2` with `x_{n+1}`. -/
def quadrature_expectation_markov (env : Env) (p : MarkovGaussian)
    (obj1 : Option Obj) (feature1 : Option Feature)
    (obj2 : Option Obj) (feature2 : Option Feature)
    (nghp? : Option ℕ) : List String × Except Err Tensor :=
  let nghp := nghp?.getD 40
  (quadratureWarning,
    if obj2.isNone then
      -- `mu, cov = p.mu[:-1], p.cov[0, :-1]` — cross covariances are not needed
      let eval_func := markov_eval_func_obj1 env obj1 feature1
      env.mvnquad eval_func p.mu.dropLastAxis0 ((p.cov.index0 0).dropLastAxis0) nghp
    else if obj1.isNone then
      -- `mu, cov = p.mu[1:], p.cov[0, 1:]` — cross covariances are not needed
      let eval_func := markov_eval_func_obj2 env obj2 feature2
      env.mvnquad eval_func p.mu.tailAxis0 ((p.cov.index0 0).tailAxis0) nghp
    else
      let eval_func := markov_eval_func_pair env obj1 feature1 obj2 feature2
      env.mvnquad eval_func (markovPairMu p.mu) (markovPairCov p.cov) nghp)

/-! ### Concrete instances used by the witnesses -/

/-- A concrete scalar tensor. -/
def tensor0 : Tensor := ⟨[], fun _ => 0⟩

/-- A concrete 2×1 tensor (used as a Markov mean with N = 1, D = 1). -/
def muW : Tensor := ⟨[2, 1], fun idx => (idx.getD 0 0 : ℚ)⟩

/-- A concrete 2×2×1×1 tensor (used as a Markov covariance with N = 1, D = 1). -/
def covW : Tensor := ⟨[2, 2, 1, 1], fun _ => 1⟩

/-- A concrete 3×2 tensor (used as a diagonal variance vector, N = 3, D = 2). -/
def dcovW : Tensor := ⟨[3, 2], fun idx => (idx.getD 1 0 : ℚ) + 1⟩

/-- A concrete kernel object. -/
def kernelW : Obj := .kernel (fun t => t)

/-- A second concrete kernel object. -/
def kernelW2 : Obj := .kernel (fun t => t.expandDims 0)

/-- A concrete mean-function object. -/
def meanW : Obj := .meanFunction (fun t => t)

/-- A concrete environment whose `on_separate_dims` predicate answers
`true` for every pair. -/
def envSep : Env where
  mvnquad := fun _ _ _ _ => .ok tensor0
  kuf := fun _ _ x => x
  on_separate_dims := fun _ _ => .ok true
  qe := fun _ _ _ _ => .ok muW

/-- A concrete environment whose `on_separate_dims` predicate answers
`false` for every pair. -/
def envNoSep : Env where
  mvnquad := fun _ _ _ _ => .ok tensor0
  kuf := fun _ _ x => x
  on_separate_dims := fun _ _ => .ok false
  qe := fun _ _ _ _ => .ok muW

/-! ### Entry-level description of the Markov two-evaluator integration inputs -/

/-- The integration mean of the two-evaluator Markov case is N×2D. -/
theorem markovPairMu_shape (pmu : Tensor) (N D : ℕ) (hmu : pmu.shape = [N + 1, D]) :
    (markovPairMu pmu).shape = [N, 2 * D] := by
  simp [markovPairMu, Tensor.concat, Tensor.dropLastAxis0, Tensor.tailAxis0, hmu,
    List.getD, two_mul]

/-- Entrywise, the integration mean is `mu[:-1]` next to `mu[1:]`. -/
theorem markovPairMu_entry (pmu : Tensor) (N D : ℕ) (hmu : pmu.shape = [N + 1, D])
    (m j : ℕ) :
    (markovPairMu pmu).entry [m, j]
      = if j < D then pmu.entry [m, j] else pmu.entry [m + 1, j - D] := by
  simp [markovPairMu, Tensor.concat, Tensor.dropLastAxis0, Tensor.tailAxis0, hmu, List.getD]

/-- The integration covariance of the two-evaluator Markov case is N×2D×2D. -/
theorem markovPairCov_shape (pcov : Tensor) (N D : ℕ)
    (hcov : pcov.shape = [2, N + 1, D, D]) :
    (markovPairCov pcov).shape = [N, 2 * D, 2 * D] := by
  simp [markovPairCov, Tensor.concat, Tensor.index0, Tensor.dropLastAxis0, Tensor.tailAxis0,
    Tensor.matrixTranspose, swapPos, hcov, List.getD, two_mul]

/-- Entrywise block description of the assembled Markov covariance:
top-left `cov[0, :-1]`, top-right `cov[1, :-1]`, bottom-left the transpose
of `cov[1, :-1]`, bottom-right `cov[0, 1:]`. -/
theorem markovPairCov_entry (pcov : Tensor) (N D : ℕ)
    (hcov : pcov.shape = [2, N + 1, D, D]) (m i j : ℕ) :
    (markovPairCov pcov).entry [m, i, j]
      = if i < D then
          (if j < D then pcov.entry [0, m, i, j] else pcov.entry [1, m, i, j - D])
        else
          (if j < D then pcov.entry [1, m, j, i - D]
           else pcov.entry [0, m + 1, i - D, j - D]) := by
  simp only [markovPairCov, Tensor.concat, Tensor.index0, Tensor.dropLastAxis0,
    Tensor.tailAxis0, Tensor.matrixTranspose, swapPos, hcov, List.getD, List.tail_cons]
  simp [List.getD]

/-- Symmetry of the assembled Markov covariance: if every marginal block of
`cov[0]` is symmetric then every assembled 2D×2D block is symmetric. -/
theorem markovPairCov_symm (pcov : Tensor) (N D : ℕ)
    (hcov : pcov.shape = [2, N + 1, D, D])
    (hsym : ∀ m i j, pcov.entry [0, m, i, j] = pcov.entry [0, m, j, i]) (m i j : ℕ) :
    (markovPairCov pcov).entry [m, i, j] = (markovPairCov pcov).entry [m, j, i] := by
  rw [markovPairCov_entry pcov N D hcov, markovPairCov_entry pcov N D hcov]
  rcases Nat.lt_or_ge i D with hi | hi <;> rcases Nat.lt_or_ge j D with hj | hj
  · simp [hi, hj, hsym]
  · simp [hi, Nat.not_lt.mpr hj]
  · simp [hj, Nat.not_lt.mpr hi]
  · simp [Nat.not_lt.mpr hi, Nat.not_lt.mpr hj, hsym]

/-! ### Claim theorems -/

/-- C1: the single-evaluator Gaussian path of the spec (`obj2 is None` with
`obj1` present) is supposed to delegate the resolved evaluator of
`(obj1, feature1)` to `mvnquad` and succeed; instead the code binds the
local `eval_fun` but the final call reads `eval_func`, which is unbound in
this branch, so every such call raises `UnboundLocalError` and never
reaches the quadrature primitive (for any environment, i.e. for any
behaviour of `mvnquad`). -/
theorem gaussian_single_evaluator_unbound_local (env : Env) (mu cov : Tensor)
    (o1 : Obj) (f1 f2 : Option Feature) (n : Option ℕ) :
    (quadrature_expectation_gauss env (.gaussian mu cov) (some o1) f1 none f2 n).2
      = .error .nameError :=
  rfl

/-- C4: in the MarkovGaussian specialization, the single-evaluator case
`obj2 = None` delegates to the quadrature primitive with `mu[:-1]` and the
marginal covariance block `cov[0, :-1]`, the case `obj1 = None` delegates
with `mu[1:]` and `cov[0, 1:]`, and neither case raises
`NotImplementedError` (unlike the Gaussian path, the Markov path permits a
null `obj1` when `obj2` is present): the outcome is exactly whatever the
quadrature primitive returns. -/
theorem markov_single_evaluator_slices (env : Env) (pmu pcov : Tensor)
    (o1 o2 : Obj) (f1 f2 : Option Feature) (n : Option ℕ) :
    ((quadrature_expectation_markov env ⟨pmu, pcov⟩ (some o1) f1 none f2 n).2
        = env.mvnquad (markov_eval_func_obj1 env (some o1) f1)
            pmu.dropLastAxis0 ((pcov.index0 0).dropLastAxis0) (n.getD 40))
    ∧ ((quadrature_expectation_markov env ⟨pmu, pcov⟩ none f1 (some o2) f2 n).2
        = env.mvnquad (markov_eval_func_obj2 env (some o2) f2)
            pmu.tailAxis0 ((pcov.index0 0).tailAxis0) (n.getD 40)) :=
  ⟨rfl, rfl⟩

/-- C5: the Gaussian/DiagonalGaussian specialization raises
`NotImplementedError` whenever `obj1` is null — including when `obj2` is
also null — for every environment, so the quadrature primitive is never
reached. -/
theorem gaussian_obj1_none_not_implemented (env : Env) (mu cov dmu dcov : Tensor)
    (f1 f2 : Option Feature) (obj2 : Option Obj) (n : Option ℕ) :
    ((quadrature_expectation_gauss env (.gaussian mu cov) none f1 obj2 f2 n).2
        = .error .notImplementedError)
    ∧ ((quadrature_expectation_gauss env (.diagonalGaussian dmu dcov) none f1 obj2 f2 n).2
        = .error .notImplementedError) :=
  ⟨rfl, rfl⟩

/-- C8: when the quadrature order `nghp` is unspecified the Gaussian /
DiagonalGaussian specialization uses the default order 100 and the
MarkovGaussian specialization uses the default order 40; a given order is
used as supplied. -/
theorem default_quadrature_orders (env : Env) (mu cov pmu pcov : Tensor)
    (o1 o2 : Obj) (f1 f2 : Option Feature) (k : ℕ) :
    ((quadrature_expectation_gauss env (.gaussian mu cov) (some o1) f1 (some o2) f2 none).2
        = env.mvnquad (gauss_eval_func env (some o1) f1 (some o2) f2) mu cov 100)
    ∧ ((quadrature_expectation_gauss env (.gaussian mu cov) (some o1) f1 (some o2) f2 (some k)).2
        = env.mvnquad (gauss_eval_func env (some o1) f1 (some o2) f2) mu cov k)
    ∧ ((quadrature_expectation_markov env ⟨pmu, pcov⟩ (some o1) f1 none f2 none).2
        = env.mvnquad (markov_eval_func_obj1 env (some o1) f1)
            pmu.dropLastAxis0 ((pcov.index0 0).dropLastAxis0) 40)
    ∧ ((quadrature_expectation_markov env ⟨pmu, pcov⟩ (some o1) f1 none f2 (some k)).2
        = env.mvnquad (markov_eval_func_obj1 env (some o1) f1)
            pmu.dropLastAxis0 ((pcov.index0 0).dropLastAxis0) k) :=
  ⟨rfl, rfl, rfl, rfl⟩

/-- C9: both specializations emit exactly the one diagnostic warning that
an approximate non-analytic method is in use, on every invocation,
whichever branch (single-evaluator, two-evaluator, shortcut or error) is
subsequently taken. -/
theorem quadrature_warning_always_emitted (env env' : Env) (p : GaussianFamily)
    (pm : MarkovGaussian) (obj1 obj2 obj1' obj2' : Option Obj)
    (f1 f2 f1' f2' : Option Feature) (n n' : Option ℕ) :
    ((quadrature_expectation_gauss env p obj1 f1 obj2 f2 n).1 = quadratureWarning)
    ∧ ((quadrature_expectation_markov env' pm obj1' f1' obj2' f2' n').1 = quadratureWarning) :=
  ⟨rfl, rfl⟩

/-- C10: in the DiagonalGaussian branch the predicate
`obj1.on_separate_dims(obj2)` is evaluated before — and not guarded by —
the check that both objects are Kernels: with a MeanFunction as `obj1` the
attribute access raises `AttributeError` whatever `obj2` is, and with a
Kernel as `obj1` and a null `obj2` the predicate is still invoked with
argument `None`, the outcome depending on that very call even though the
subsequent kernel check is bound to fail. -/
theorem diagonal_on_separate_dims_unguarded (env : Env) (mu pcov : Tensor)
    (mf e1 : Tensor → Tensor) (f1 f2 : Option Feature) (obj2 : Option Obj) (n : Option ℕ) :
    ((quadrature_expectation_gauss env (.diagonalGaussian mu pcov)
          (some (.meanFunction mf)) f1 obj2 f2 n).2
        = .error .attributeError)
    ∧ ((quadrature_expectation_gauss env (.diagonalGaussian mu pcov)
          (some (.kernel e1)) f1 none f2 n).2
        = match env.on_separate_dims (.kernel e1) none with
          | .ok _ => .error Err.nameError
          | .error e => .error e) :=
  ⟨rfl, by
    cases h : env.on_separate_dims (.kernel e1) none <;>
      simp [quadrature_expectation_gauss, callOnSeparateDims, h, isKernelOpt]⟩

/-- C6: whenever a feature is supplied and the object is not a Kernel
(for example a MeanFunction, or absent), the evaluator resolver raises
`TypeError`. -/
theorem get_eval_func_feature_requires_kernel (env : Env) (obj : Option Obj)
    (f : Feature) (slice? : Option Slice) (h : isKernelOpt obj = false) :
    get_eval_func env obj (some f) slice? = .error .typeError := by
  cases f
  simp [get_eval_func, h, Feature.isInducingFeature]

/-- Witness for C6: a feature supplied together with a MeanFunction makes
the resolver fail with `TypeError`. -/
theorem get_eval_func_feature_requires_kernel_witness :
    get_eval_func envSep (some meanW) (some (.inducing 0)) none = .error .typeError :=
  get_eval_func_feature_requires_kernel envSep (some meanW) (.inducing 0) none rfl

/-- C2: for a DiagonalGaussian and two Kernel objects whose
`on_separate_dims` predicate holds, the specialization returns exactly the
outer product `E[obj1][:, :, None] * E[obj2][:, None, :]` of the two
expectations obtained by recursive single-argument calls through the
dispatcher (`env.qe`), for any features; the joint quadrature primitive is
never invoked (the outcome is the same for every `mvnquad` put into the
environment). -/
theorem diagonal_separate_dims_shortcut (env : Env)
    (m : (Tensor → Except Err Tensor) → Tensor → Tensor → ℕ → Except Err Tensor)
    (mu pcov : Tensor) (e1 e2 : Tensor → Tensor) (f1 f2 : Option Feature)
    (n : Option ℕ) (eKxz1 eKxz2 : Tensor)
    (hsep : env.on_separate_dims (.kernel e1) (some (.kernel e2)) = .ok true)
    (hq1 : env.qe (.diagonalGaussian mu pcov) (some (.kernel e1)) f1 (n.getD 100) = .ok eKxz1)
    (hq2 : env.qe (.diagonalGaussian mu pcov) (some (.kernel e2)) f2 (n.getD 100) = .ok eKxz2) :
    (quadrature_expectation_gauss { env with mvnquad := m } (.diagonalGaussian mu pcov)
        (some (.kernel e1)) f1 (some (.kernel e2)) f2 n).2
      = .ok (Tensor.mul (eKxz1.expandDims 2) (eKxz2.expandDims 1)) := by
  simp [quadrature_expectation_gauss, callOnSeparateDims, hsep, hq1, hq2,
    isKernelOpt, Obj.isKernel]

/-- Witness for C2: with a concrete environment whose predicate answers
`true` and whose dispatcher returns `muW` for both recursive calls, the
shortcut produces the concrete outer product. -/
theorem diagonal_separate_dims_shortcut_witness :
    (quadrature_expectation_gauss { envSep with mvnquad := envSep.mvnquad }
        (.diagonalGaussian muW dcovW)
        (some (.kernel (fun t => t))) none (some (.kernel (fun t => t.expandDims 0))) none
        none).2
      = .ok (Tensor.mul (muW.expandDims 2) (muW.expandDims 1)) :=
  diagonal_separate_dims_shortcut envSep envSep.mvnquad muW dcovW
    (fun t => t) (fun t => t.expandDims 0) none none none muW muW rfl rfl rfl

/-- C7: for a DiagonalGaussian that does not satisfy the degenerate-case
shortcut condition, the per-row variance vector `p.cov` is expanded by
`tf.matrix_diag` into a dense per-row diagonal covariance (every
off-diagonal entry zero) and that dense covariance is what reaches the
quadrature primitive; for a full Gaussian, `p.cov` is passed through
unchanged. -/
theorem diagonal_covariance_canonicalization (env : Env) (mu pcov gmu gcov : Tensor)
    (o1 o2 : Obj) (f1 f2 : Option Feature) (n : Option ℕ) (N D : ℕ) (sd : Bool)
    (hsep : callOnSeparateDims env o1 (some o2) = .ok sd)
    (hcond : (o1.isKernel && o2.isKernel && sd) = false)
    (hshape : pcov.shape = [N, D]) :
    ((quadrature_expectation_gauss env (.diagonalGaussian mu pcov)
          (some o1) f1 (some o2) f2 n).2
        = env.mvnquad (gauss_eval_func env (some o1) f1 (some o2) f2)
            mu (Tensor.matrixDiag pcov) (n.getD 100))
    ∧ (∀ i j k : ℕ, j ≠ k → (Tensor.matrixDiag pcov).entry [i, j, k] = 0)
    ∧ ((quadrature_expectation_gauss env (.gaussian gmu gcov)
          (some o1) f1 (some o2) f2 n).2
        = env.mvnquad (gauss_eval_func env (some o1) f1 (some o2) f2)
            gmu gcov (n.getD 100)) := by
  refine ⟨?_, ?_, rfl⟩
  · simp only [quadrature_expectation_gauss, hsep, isKernelOpt]
    simp [hcond, GaussianFamily.mu, GaussianFamily.cov]
  · intro i j k hjk
    simp [Tensor.matrixDiag, hshape, List.getD, hjk]

/-- Witness for C7: two concrete kernels whose predicate answers `false`
send the concrete variance vector `dcovW` through `matrix_diag` to the
quadrature primitive, and its off-diagonal entries vanish. -/
theorem diagonal_covariance_canonicalization_witness :
    ((quadrature_expectation_gauss envNoSep (.diagonalGaussian muW dcovW)
          (some kernelW) none (some kernelW2) none none).2
        = envNoSep.mvnquad (gauss_eval_func envNoSep (some kernelW) none (some kernelW2) none)
            muW (Tensor.matrixDiag dcovW) 100)
    ∧ (∀ i j k : ℕ, j ≠ k → (Tensor.matrixDiag dcovW).entry [i, j, k] = 0)
    ∧ ((quadrature_expectation_gauss envNoSep (.gaussian muW covW)
          (some kernelW) none (some kernelW2) none none).2
        = envNoSep.mvnquad (gauss_eval_func envNoSep (some kernelW) none (some kernelW2) none)
            muW covW 100) :=
  diagonal_covariance_canonicalization envNoSep muW dcovW muW covW kernelW kernelW2
    none none none 3 2 false rfl rfl rfl

/-- C3: in the two-evaluator MarkovGaussian case the integration mean
passed to quadrature is the concatenation of `mu[:-1]` and `mu[1:]` along
the feature axis (shape N×2D) and the integration covariance is the block
matrix with top-left `cov[0, :-1]`, top-right `cov[1, :-1]`, bottom-left
the transpose of `cov[1, :-1]` and bottom-right `cov[0, 1:]` (shape
N×2D×2D); whenever each marginal block of `cov[0]` is symmetric, the
assembled 2D×2D covariance is symmetric. -/
theorem markov_pair_integration_inputs (env : Env) (pmu pcov : Tensor) (o1 o2 : Obj)
    (f1 f2 : Option Feature) (n : Option ℕ) (N D : ℕ)
    (hmu : pmu.shape = [N + 1, D]) (hcov : pcov.shape = [2, N + 1, D, D]) :
    ((quadrature_expectation_markov env ⟨pmu, pcov⟩ (some o1) f1 (some o2) f2 n).2
        = env.mvnquad (markov_eval_func_pair env (some o1) f1 (some o2) f2)
            (markovPairMu pmu) (markovPairCov pcov) (n.getD 40))
    ∧ (markovPairMu pmu).shape = [N, 2 * D]
    ∧ (∀ m j, (markovPairMu pmu).entry [m, j]
        = if j < D then pmu.entry [m, j] else pmu.entry [m + 1, j - D])
    ∧ (markovPairCov pcov).shape = [N, 2 * D, 2 * D]
    ∧ (∀ m i j, (markovPairCov pcov).entry [m, i, j]
        = if i < D then
            (if j < D then pcov.entry [0, m, i, j] else pcov.entry [1, m, i, j - D])
          else
            (if j < D then pcov.entry [1, m, j, i - D]
             else pcov.entry [0, m + 1, i - D, j - D]))
    ∧ ((∀ m i j, pcov.entry [0, m, i, j] = pcov.entry [0, m, j, i]) →
        ∀ m i j, (markovPairCov pcov).entry [m, i, j] = (markovPairCov pcov).entry [m, j, i]) :=
  ⟨rfl, markovPairMu_shape pmu N D hmu, markovPairMu_entry pmu N D hmu,
    markovPairCov_shape pcov N D hcov, markovPairCov_entry pcov N D hcov,
    fun hsym => markovPairCov_symm pcov N D hcov hsym⟩

/-- Witness for C3: the two-evaluator Markov case at the concrete N = 1,
D = 1 distribution `(muW, covW)` with two concrete kernels. -/
theorem markov_pair_integration_inputs_witness :
    ((quadrature_expectation_markov envSep ⟨muW, covW⟩ (some kernelW) none
          (some kernelW2) none none).2
        = envSep.mvnquad (markov_eval_func_pair envSep (some kernelW) none (some kernelW2) none)
            (markovPairMu muW) (markovPairCov covW) ((none : Option ℕ).getD 40))
    ∧ (markovPairMu muW).shape = [1, 2 * 1]
    ∧ (∀ m j, (markovPairMu muW).entry [m, j]
        = if j < 1 then muW.entry [m, j] else muW.entry [m + 1, j - 1])
    ∧ (markovPairCov covW).shape = [1, 2 * 1, 2 * 1]
    ∧ (∀ m i j, (markovPairCov covW).entry [m, i, j]
        = if i < 1 then
            (if j < 1 then covW.entry [0, m, i, j] else covW.entry [1, m, i, j - 1])
          else
            (if j < 1 then covW.entry [1, m, j, i - 1]
             else covW.entry [0, m + 1, i - 1, j - 1]))
    ∧ ((∀ m i j, covW.entry [0, m, i, j] = covW.entry [0, m, j, i]) →
        ∀ m i j, (markovPairCov covW).entry [m, i, j] = (markovPairCov covW).entry [m, j, i]) :=
  markov_pair_integration_inputs envSep muW covW kernelW kernelW2 none none none 1 1 rfl rfl

end GPflow
